import Mathlib

/-!
Shallow embedding of `src/coastseg/extracted_shoreline.py`.

The module defines the class `Extracted_Shoreline`, which orchestrates
shoreline extraction for one region of interest (ROI): it validates its
constructor arguments, assembles a settings dictionary, calls the external
`coastsat` detection library, post-filters the result, and materializes a
geodataframe in the map coordinate reference system (CRS).

Modelling conventions:
* Python dictionaries are association lists `List (String × PyVal)` with
  first-match lookup; `dinsert` rebinds an existing key in place and
  appends a fresh key at the end, matching CPython dict semantics.
* Dynamically typed Python values are the inductive `PyVal`.  Numeric
  payloads (floats in the source) are represented by `Int`, since no claim
  depends on numeric arithmetic.
* The external libraries (`coastsat`'s `SDS_download`, `SDS_shoreline`,
  `SDS_tools`, geopandas reprojection, and the repository helper
  `common.make_coastsat_compatible`) are black boxes, modelled as the
  record `Env` of pure functions.  Every call into the detection library
  is additionally recorded in a trace of `ExtCall` entries so that the
  call sequence is observable.
* Python exceptions become `Except PyErr`; mutation of `self` becomes
  explicit state passing of the `Extracted_Shoreline` record, and a method
  that in Python could mutate a caller-supplied dictionary returns the
  final value of that dictionary alongside its other results.
-/

set_option autoImplicit false

namespace CoastSeg

/-- A line geometry: a list of coordinate pairs (coordinates abstracted to `Int`). -/
abbrev Geom := List (Int × Int)

/-- One row of the extracted-shoreline geodataframe, with the columns
`['geometry','date','satname','geoaccuracy','cloud_cover']` produced by
`SDS_tools.output_to_gdf` (see the docstring of `create_geodataframe`). -/
structure Row where
  geometry : Geom
  date : String
  satname : String
  geoaccuracy : Int
  cloud_cover : Int

/-- Dynamically typed Python values that appear in the dictionaries of this
module: strings, booleans, integers, `None`, lists, nested dictionaries and
numpy arrays (a numpy `n × m` array is a list of rows of integers). -/
inductive PyVal where
  | vStr (s : String)
  | vBool (b : Bool)
  | vInt (n : Int)
  | vNone
  | vList (xs : List PyVal)
  | vDict (entries : List (String × PyVal))
  | vArr (rows : List (List Int))

/-- A Python dictionary with string keys. -/
abbrev Dict := List (String × PyVal)

/-- Dictionary lookup, `d[k]`-style: first binding of the key wins. -/
def dlookup : Dict → String → Option PyVal
  | [], _ => none
  | (k', v) :: rest, k => if k' = k then some v else dlookup rest k

/-- Dictionary update `d[k] = v`: rebinds an existing key in place (keeping
its position), otherwise appends the new binding at the end (CPython
insertion order). -/
def dinsert : Dict → String → PyVal → Dict
  | [], k, v => [(k, v)]
  | (k', v') :: rest, k, v =>
    if k' = k then (k, v) :: rest else (k', v') :: dinsert rest k v

/-- `copy.deepcopy` on a dictionary.  Dictionary values are modelled as pure
trees, so the recursive copy of each value is observationally the value
itself; the dictionary spine is rebuilt entry by entry. -/
def deepcopyDict (d : Dict) : Dict :=
  d.map (fun p => (p.1, p.2))

/-- A geopandas `GeoDataFrame`: an optional CRS and a list of rows.  The CRS
is kept as a dynamic value because the source assigns both strings
(`"EPSG:4326"`) and the raw `settings["output_epsg"]` value to it. -/
structure GeoDataFrame where
  crs : Option PyVal
  rows : List Row

/-- `gpd.GeoDataFrame()`: the empty geodataframe with no CRS. -/
def emptyGdf : GeoDataFrame :=
  { crs := none, rows := [] }

/-- A dynamically typed Python value as passed to the constructor: either a
plain value or a geodataframe (geodataframes do not occur inside the
dictionaries of this module, so they live outside `PyVal`). -/
inductive Arg where
  | val (v : PyVal)
  | gdf (g : GeoDataFrame)

/-- Python exceptions raised by this module: `ValueError` from argument
validation, `KeyError` from dictionary subscripts, and the repository
exception `exceptions.No_Extracted_Shoreline`. -/
inductive PyErr where
  | valueError (msg : String)
  | keyError (key : String)
  | noExtractedShoreline (roi_id : String)

/-- Dictionary subscript `d[k]` as an operation that can raise `KeyError`. -/
def dget (d : Dict) (k : String) : Except PyErr PyVal :=
  match dlookup d k with
  | some v => .ok v
  | none => .error (.keyError k)

/-- One call into the external `coastsat` detection library, with its
arguments and result. -/
inductive ExtCall where
  | get_metadata (arg : PyVal) (out : PyVal)
  | sds_extract (metadata : PyVal) (settings : Dict) (out : Dict)
  | remove_duplicates (arg : Dict) (out : Dict)
  | remove_inaccurate_georef (arg : Dict) (threshold : Int) (out : Dict)

/-- The qualified name of the external function performing the call. -/
def ExtCall.fname : ExtCall → String
  | .get_metadata _ _ => "SDS_download.get_metadata"
  | .sds_extract _ _ _ => "SDS_shoreline.extract_shorelines"
  | .remove_duplicates _ _ => "SDS_tools.remove_duplicates"
  | .remove_inaccurate_georef _ _ _ => "SDS_tools.remove_inaccurate_georef"

/-- The result of an external call, as a dynamic value. -/
def ExtCall.output : ExtCall → PyVal
  | .get_metadata _ out => out
  | .sds_extract _ _ out => .vDict out
  | .remove_duplicates _ out => .vDict out
  | .remove_inaccurate_georef _ _ out => .vDict out

/-- `c.takes v` holds when `v` is among the arguments of the external call `c`. -/
def ExtCall.takes (c : ExtCall) (v : PyVal) : Prop :=
  match c with
  | .get_metadata a _ => v = a
  | .sds_extract m s _ => v = m ∨ v = .vDict s
  | .remove_duplicates a _ => v = .vDict a
  | .remove_inaccurate_georef a _ _ => v = .vDict a

/-- Consecutive calls of a trace are chained: each call after the first
takes the previous call's result among its inputs. -/
def chained : List ExtCall → Prop
  | [] => True
  | [_] => True
  | a :: b :: rest => b.takes a.output ∧ chained (b :: rest)

/-- The external collaborators of the module, as pure functions:
the `coastsat` detection library (`SDS_download.get_metadata`,
`SDS_shoreline.extract_shorelines`, `SDS_tools.remove_duplicates`,
`SDS_tools.remove_inaccurate_georef`, `SDS_tools.output_to_gdf`),
geopandas reprojection of a geometry from a source CRS to a target CRS,
and the repository helper `common.make_coastsat_compatible`. -/
structure Env where
  get_metadata : PyVal → PyVal
  sds_extract_shorelines : PyVal → Dict → Dict
  remove_duplicates : Dict → Dict
  remove_inaccurate_georef : Dict → Int → Dict
  output_to_gdf : Dict → String → GeoDataFrame
  reproject : Option PyVal → PyVal → Geom → Geom
  make_coastsat_compatible : GeoDataFrame → List (List (Int × Int))

/-- `GeoDataFrame.to_crs`: reprojects every geometry from the frame's
current CRS to the target CRS (`Env.reproject` receives both) and sets the
frame's CRS to the target. -/
def GeoDataFrame.to_crs (env : Env) (g : GeoDataFrame) (target : PyVal) : GeoDataFrame :=
  { crs := some target,
    rows := g.rows.map (fun r => { r with geometry := env.reproject g.crs target r.geometry }) }

/-- Module-level function `get_reference_shoreline`: reprojects the
shoreline geodataframe to the output CRS, converts it to the coastsat
format, stacks the parts (`np.vstack`) and appends a third column of zeros
for mean sea level (`np.insert(..., 2, zeros, axis=1)`). -/
def get_reference_shoreline (env : Env) (shoreline_gdf : GeoDataFrame)
    (output_crs : PyVal) : List (List Int) :=
  let reprojected_shorlines := shoreline_gdf.to_crs env output_crs
  let shorelines := env.make_coastsat_compatible reprojected_shorlines
  let stacked := shorelines.flatten
  stacked.map (fun p => [p.1, p.2, 0])

/-- Modelled from the spec: `common.is_list_empty`, the repository helper
(module `coastseg/common.py`, not under `src/`) used by the constructor to
test whether the extracted `'shorelines'` list is empty. -/
def is_list_empty : PyVal → Bool
  | .vList xs => xs.isEmpty
  | _ => false

/-- The state of an `Extracted_Shoreline` object: the fields assigned in
`__init__`. -/
structure Extracted_Shoreline where
  gdf : GeoDataFrame
  roi_id : String
  extracted_shorelines : Dict
  shoreline_settings : Dict

/-- Class attribute `FILE_NAME`. -/
def FILE_NAME : String := "extracted_shorelines.geojson"

/-- The object state right after the field initializations of `__init__`
(lines 62–69 of the source): empty geodataframe, the validated ROI id, and
empty dictionaries. -/
def init_self (roi_id : String) : Extracted_Shoreline :=
  { gdf := emptyGdf, roi_id := roi_id, extracted_shorelines := [], shoreline_settings := [] }

/-- `create_shoreline_settings`: deep-copies `settings`, patches the four
keys `reference_shoreline`, `adjust_detection`, `check_detection` and
`inputs`, and stores the result in `self.shoreline_settings`.  The method
returns, besides the updated object, the final values of the caller's
`settings` and `roi_settings` dictionaries (which the source never
mutates: all writes target the deep copy). -/
def Extracted_Shoreline.create_shoreline_settings (self : Extracted_Shoreline)
    (settings : Dict) (roi_settings : Dict) (reference_shoreline : PyVal) :
    Extracted_Shoreline × Dict × Dict :=
  let shoreline_settings := deepcopyDict settings
  let shoreline_settings := dinsert shoreline_settings "reference_shoreline" reference_shoreline
  let shoreline_settings := dinsert shoreline_settings "adjust_detection" (.vBool false)
  let shoreline_settings := dinsert shoreline_settings "check_detection" (.vBool false)
  let shoreline_settings := dinsert shoreline_settings "inputs" (.vDict roi_settings)
  ({ self with shoreline_settings := shoreline_settings }, settings, roi_settings)

/-- `extract_shorelines`: builds the reference shoreline, assembles
`self.shoreline_settings`, then chains the four external detection-library
calls `get_metadata`, `extract_shorelines`, `remove_duplicates` and
`remove_inaccurate_georef` (threshold 10).  Returns the updated object,
the post-filtered dictionary, and the trace of external calls. -/
def Extracted_Shoreline.extract_shorelines (env : Env) (self : Extracted_Shoreline)
    (shoreline_gdf : GeoDataFrame) (roi_settings : Dict) (settings : Dict) :
    Except PyErr (Extracted_Shoreline × Dict × List ExtCall) := do
  let output_epsg ← dget settings "output_epsg"
  let reference_shoreline := get_reference_shoreline env shoreline_gdf output_epsg
  let (self1, _settings1, _roi_settings1) :=
    self.create_shoreline_settings settings roi_settings (.vArr reference_shoreline)
  let inputs ← dget self1.shoreline_settings "inputs"
  let metadata := env.get_metadata inputs
  let extracted0 := env.sds_extract_shorelines metadata self1.shoreline_settings
  let extracted1 := env.remove_duplicates extracted0
  let extracted2 := env.remove_inaccurate_georef extracted1 10
  .ok (self1, extracted2,
    [ .get_metadata inputs metadata,
      .sds_extract metadata self1.shoreline_settings extracted0,
      .remove_duplicates extracted0 extracted1,
      .remove_inaccurate_georef extracted1 10 extracted2 ])

/-- `create_geodataframe`: converts `self.extracted_shorelines` to a
geodataframe with `SDS_tools.output_to_gdf`, assigns `input_crs` to it, and
reprojects to `output_crs` when one is given. -/
def Extracted_Shoreline.create_geodataframe (self : Extracted_Shoreline) (env : Env)
    (input_crs : PyVal) (output_crs : Option PyVal := none) : GeoDataFrame :=
  let extract_shoreline_gdf := env.output_to_gdf self.extracted_shorelines "lines"
  let extract_shoreline_gdf := { extract_shoreline_gdf with crs := some input_crs }
  match output_crs with
  | some c => extract_shoreline_gdf.to_crs env c
  | none => extract_shoreline_gdf

/-- Source line 42: `isinstance(roi_id, str)` or `ValueError`. -/
def check_roi_id : Arg → Except PyErr String
  | .val (.vStr s) => .ok s
  | _ => .error (.valueError "ROI id must be string.")

/-- Source lines 45–50: `isinstance(shoreline, gpd.GeoDataFrame)` and
`not shoreline.empty`, or `ValueError`. -/
def check_shoreline : Arg → Except PyErr GeoDataFrame
  | .gdf g =>
    if g.rows.isEmpty then .error (.valueError "shoreline cannot be empty.")
    else .ok g
  | _ => .error (.valueError "shoreline must be valid geodataframe.")

/-- Source lines 52–60: `isinstance(x, dict)` and `x != {}`, or
`ValueError`; used for both `roi_settings` and `settings`. -/
def check_settings_dict (label : String) : Arg → Except PyErr Dict
  | .val (.vDict d) =>
    if d.isEmpty then .error (.valueError (label ++ " cannot be empty."))
    else .ok d
  | _ => .error (.valueError (label ++ " must be dict."))

/-- The validation block of `__init__` (source lines 42–60): `roi_id` must
be a string, `shoreline` a non-empty geodataframe, and `roi_settings` and
`settings` non-empty dictionaries, checked in that order. -/
def validate_args (roi_id shoreline roi_settings settings : Arg) :
    Except PyErr (String × GeoDataFrame × Dict × Dict) := do
  let s ← check_roi_id roi_id
  let g ← check_shoreline shoreline
  let rd ← check_settings_dict "roi_settings" roi_settings
  let sd ← check_settings_dict "settings" settings
  .ok (s, g, rd, sd)

/-- `isinstance(a, str)`. -/
def isStrArg : Arg → Bool
  | .val (.vStr _) => true
  | _ => false

/-- `isinstance(a, gpd.GeoDataFrame)`. -/
def isGdfArg : Arg → Bool
  | .gdf _ => true
  | _ => false

/-- `isinstance(a, gpd.GeoDataFrame) and a.empty`. -/
def isEmptyGdfArg : Arg → Bool
  | .gdf g => g.rows.isEmpty
  | _ => false

/-- `isinstance(a, dict)`. -/
def isDictArg : Arg → Bool
  | .val (.vDict _) => true
  | _ => false

/-- `isinstance(a, dict) and a == \x7b\x7d`. -/
def isEmptyDictArg : Arg → Bool
  | .val (.vDict d) => d.isEmpty
  | _ => false

/-- `__init__`: validates the four arguments, initializes the fields, runs
`extract_shorelines`, raises `No_Extracted_Shoreline` when the extracted
`'shorelines'` list is empty, and otherwise materializes `self.gdf` in the
map CRS `"EPSG:4326"` from the CRS `shoreline_settings["output_epsg"]`. -/
def init (env : Env) (roi_id shoreline roi_settings settings : Arg) :
    Except PyErr Extracted_Shoreline := do
  let (s, shoreline_gdf, rd, sd) ← validate_args roi_id shoreline roi_settings settings
  let self0 := init_self s
  let (self1, extracted, _trace) ← self0.extract_shorelines env shoreline_gdf rd sd
  let self2 := { self1 with extracted_shorelines := extracted }
  let shorelines_val ← dget self2.extracted_shorelines "shorelines"
  if is_list_empty shorelines_val then
    .error (.noExtractedShoreline self2.roi_id)
  else do
    let output_epsg ← dget self2.shoreline_settings "output_epsg"
    let map_crs : PyVal := .vStr "EPSG:4326"
    .ok { self2 with gdf := self2.create_geodataframe env output_epsg (some map_crs) }

/-- Whether an exception outcome is a `ValueError`. -/
def isValueError {α : Type} : Except PyErr α → Bool
  | .error (.valueError _) => true
  | _ => false

/-- The filesystem as a map from paths to stored feature collections
(GeoJSON encoding and decoding belong to geopandas and are kept at the
feature-collection granularity). -/
abbrev FileSys := List (String × GeoDataFrame)

/-- Filesystem lookup by path. -/
def fslookup : FileSys → String → Option GeoDataFrame
  | [], _ => none
  | (p, g) :: rest, q => if p = q then some g else fslookup rest q

/-- `os.path.join(filepath, sitename, FILE_NAME)`. -/
def save_path (sitename filepath : String) : String :=
  filepath ++ "/" ++ sitename ++ "/" ++ FILE_NAME

/-- `save_to_file`: writes `self.gdf` as GeoJSON to
`os.path.join(filepath, sitename, FILE_NAME)`, overwriting that path. -/
def Extracted_Shoreline.save_to_file (self : Extracted_Shoreline)
    (sitename filepath : String) (fs : FileSys) : FileSys :=
  (save_path sitename filepath, self.gdf) :: fs

/-- Modelled from the spec: the component's deserialization operation
("serialize/deserialize a feature collection to/from a file", spec item
(e)).  The loading code lives in the repository outside `src/`; it reads
the saved feature collection back from the path the saver wrote to. -/
def load_extracted_shorelines (sitename filepath : String) (fs : FileSys) :
    Option GeoDataFrame :=
  fslookup fs (save_path sitename filepath)

/-- The `'date'` column of the geodataframe, `self.gdf["date"].to_list()`. -/
def GeoDataFrame.date_column (g : GeoDataFrame) : List String :=
  g.rows.map Row.date

/-- `get_layer_names`: one layer name per geodataframe row, of the form
`"ID" + roi_id + "_" + date_str`. -/
def Extracted_Shoreline.get_layer_names (self : Extracted_Shoreline) : List String :=
  self.gdf.date_column.map (fun date_str => "ID" ++ self.roi_id ++ "_" ++ date_str)

/-! ### Concrete fixtures used by witnesses and counterexamples -/

/-- A concrete geodataframe row. -/
def row0 : Row :=
  { geometry := [(0, 0), (1, 1)], date := "2018-12-31 19:03:17", satname := "L8",
    geoaccuracy := 5, cloud_cover := 0 }

/-- A concrete non-empty reference-shoreline geodataframe. -/
def g0 : GeoDataFrame :=
  { crs := some (.vStr "EPSG:4326"), rows := [row0] }

/-- Concrete ROI settings. -/
def rd0 : Dict :=
  [("dates", .vList [.vStr "2018-12-01", .vStr "2019-03-01"]), ("sitename", .vStr "ID02")]

/-- Concrete map settings, holding the `output_epsg` key the source reads. -/
def sd0 : Dict :=
  [("output_epsg", .vInt 3857), ("sat_list", .vList [.vStr "L8"]), ("cloud_thresh", .vInt 1)]

/-- A concrete environment in which the detection library finds one
shoreline. -/
def env0 : Env :=
  { get_metadata := fun _ => .vStr "metadata",
    sds_extract_shorelines := fun _ _ =>
      [("shorelines", .vList [.vArr [[1, 2, 0]]]), ("geoaccuracy", .vList [.vInt 5])],
    remove_duplicates := fun d => dinsert d "dedup" (.vBool true),
    remove_inaccurate_georef := fun d t => dinsert d "threshold" (.vInt t),
    output_to_gdf := fun _ _ => { crs := none, rows := [row0] },
    reproject := fun _ _ g => g,
    make_coastsat_compatible := fun g => g.rows.map Row.geometry }

/-- A concrete environment in which the detection library finds no
shoreline at all. -/
def env_empty : Env :=
  { env0 with
    sds_extract_shorelines := fun _ _ => [("shorelines", .vList [])],
    remove_duplicates := fun d => d,
    remove_inaccurate_georef := fun d _ => d }

/-- Constructor argument: a valid ROI id. -/
def a0 : Arg := .val (.vStr "2")

/-- Constructor argument: a valid shoreline geodataframe. -/
def b0 : Arg := .gdf g0

/-- Constructor argument: valid ROI settings. -/
def c0 : Arg := .val (.vDict rd0)

/-- Constructor argument: valid map settings. -/
def d0 : Arg := .val (.vDict sd0)

/-- Extracts the object from a successful constructor outcome. -/
def okOrInit (e : Except PyErr Extracted_Shoreline) : Extracted_Shoreline :=
  match e with
  | .ok s => s
  | .error _ => init_self ""

/-- The object constructed by `init` on the concrete fixtures. -/
def self_w : Extracted_Shoreline :=
  okOrInit (init env0 a0 b0 c0 d0)

/-- Extracts the components of a successful `extract_shorelines` outcome. -/
def okOrDefaultTriple (e : Except PyErr (Extracted_Shoreline × Dict × List ExtCall)) :
    Extracted_Shoreline × Dict × List ExtCall :=
  match e with
  | .ok t => t
  | .error _ => (init_self "", [], [])

/-- The components of `extract_shorelines` on the concrete fixtures. -/
def extract_w : Extracted_Shoreline × Dict × List ExtCall :=
  okOrDefaultTriple (Extracted_Shoreline.extract_shorelines env0 (init_self "2") g0 rd0 sd0)

/-- Same, in the environment where no shoreline is found. -/
def extract_e : Extracted_Shoreline × Dict × List ExtCall :=
  okOrDefaultTriple (Extracted_Shoreline.extract_shorelines env_empty (init_self "2") g0 rd0 sd0)

/-- The length of the external-call trace of an extraction outcome. -/
def trace_len (e : Except PyErr (Extracted_Shoreline × Dict × List ExtCall)) : Option Nat :=
  match e with
  | .ok t => some t.2.2.length
  | .error _ => none

/-! ### Reduction lemmas for the `Except` monad -/

theorem except_bind_ok {α β : Type} (a : α) (f : α → Except PyErr β) :
    (Except.ok a >>= f) = f a := rfl

theorem except_bind_err {α β : Type} (e : PyErr) (f : α → Except PyErr β) :
    ((Except.error e : Except PyErr α) >>= f) = Except.error e := rfl

/-! ### Dictionary lemmas -/

theorem dlookup_dinsert_self (d : Dict) (k : String) (v : PyVal) :
    dlookup (dinsert d k v) k = some v := by
  induction d with
  | nil => simp [dinsert, dlookup]
  | cons p rest ih =>
    obtain ⟨a, b⟩ := p
    by_cases hk : a = k
    · simp [dinsert, dlookup, hk]
    · simp [dinsert, dlookup, hk, ih]

theorem dlookup_dinsert_ne (d : Dict) (k k' : String) (v : PyVal) (hne : k' ≠ k) :
    dlookup (dinsert d k v) k' = dlookup d k' := by
  induction d with
  | nil => simp [dinsert, dlookup, Ne.symm hne]
  | cons p rest ih =>
    obtain ⟨a, b⟩ := p
    by_cases hk : a = k
    · subst hk
      simp [dinsert, dlookup, Ne.symm hne]
    · by_cases hk' : a = k'
      · simp [dinsert, dlookup, hk, hk', hne]
      · simp [dinsert, dlookup, hk, hk', ih]

theorem deepcopyDict_eq (d : Dict) : deepcopyDict d = d := by
  unfold deepcopyDict
  induction d with
  | nil => rfl
  | cons p rest ih => simp_all

/-! ### Lemmas about `create_shoreline_settings` -/

theorem create_shoreline_settings_eq (self : Extracted_Shoreline)
    (settings roi_settings : Dict) (ref : PyVal) :
    (self.create_shoreline_settings settings roi_settings ref).1.shoreline_settings =
      dinsert (dinsert (dinsert (dinsert (deepcopyDict settings)
        "reference_shoreline" ref) "adjust_detection" (.vBool false))
        "check_detection" (.vBool false)) "inputs" (.vDict roi_settings) := rfl

theorem shoreline_settings_lookup_inputs (self : Extracted_Shoreline)
    (settings roi_settings : Dict) (ref : PyVal) :
    dlookup (self.create_shoreline_settings settings roi_settings ref).1.shoreline_settings
      "inputs" = some (.vDict roi_settings) := by
  rw [create_shoreline_settings_eq]
  exact dlookup_dinsert_self _ _ _

theorem shoreline_settings_lookup_check (self : Extracted_Shoreline)
    (settings roi_settings : Dict) (ref : PyVal) :
    dlookup (self.create_shoreline_settings settings roi_settings ref).1.shoreline_settings
      "check_detection" = some (.vBool false) := by
  rw [create_shoreline_settings_eq,
    dlookup_dinsert_ne _ _ _ _ (by decide)]
  exact dlookup_dinsert_self _ _ _

theorem shoreline_settings_lookup_adjust (self : Extracted_Shoreline)
    (settings roi_settings : Dict) (ref : PyVal) :
    dlookup (self.create_shoreline_settings settings roi_settings ref).1.shoreline_settings
      "adjust_detection" = some (.vBool false) := by
  rw [create_shoreline_settings_eq,
    dlookup_dinsert_ne _ _ _ _ (by decide),
    dlookup_dinsert_ne _ _ _ _ (by decide)]
  exact dlookup_dinsert_self _ _ _

theorem shoreline_settings_lookup_reference (self : Extracted_Shoreline)
    (settings roi_settings : Dict) (ref : PyVal) :
    dlookup (self.create_shoreline_settings settings roi_settings ref).1.shoreline_settings
      "reference_shoreline" = some ref := by
  rw [create_shoreline_settings_eq,
    dlookup_dinsert_ne _ _ _ _ (by decide),
    dlookup_dinsert_ne _ _ _ _ (by decide),
    dlookup_dinsert_ne _ _ _ _ (by decide)]
  exact dlookup_dinsert_self _ _ _

theorem shoreline_settings_lookup_other (self : Extracted_Shoreline)
    (settings roi_settings : Dict) (ref : PyVal) (k : String)
    (h1 : k ≠ "reference_shoreline") (h2 : k ≠ "inputs")
    (h3 : k ≠ "adjust_detection") (h4 : k ≠ "check_detection") :
    dlookup (self.create_shoreline_settings settings roi_settings ref).1.shoreline_settings k =
      dlookup settings k := by
  rw [create_shoreline_settings_eq,
    dlookup_dinsert_ne _ _ _ _ h2,
    dlookup_dinsert_ne _ _ _ _ h4,
    dlookup_dinsert_ne _ _ _ _ h3,
    dlookup_dinsert_ne _ _ _ _ h1,
    deepcopyDict_eq]

/-! ### Case analysis of the validation block -/

theorem check_roi_id_cases (a : Arg) :
    (∃ m, check_roi_id a = .error (.valueError m)) ∨
    (∃ s, check_roi_id a = .ok s ∧ a = .val (.vStr s)) := by
  cases a with
  | val v =>
    cases v with
    | vStr s => exact Or.inr ⟨s, rfl, rfl⟩
    | vBool b => exact Or.inl ⟨_, rfl⟩
    | vInt n => exact Or.inl ⟨_, rfl⟩
    | vNone => exact Or.inl ⟨_, rfl⟩
    | vList xs => exact Or.inl ⟨_, rfl⟩
    | vDict d => exact Or.inl ⟨_, rfl⟩
    | vArr r => exact Or.inl ⟨_, rfl⟩
  | gdf g => exact Or.inl ⟨_, rfl⟩

theorem check_shoreline_cases (a : Arg) :
    (∃ m, check_shoreline a = .error (.valueError m)) ∨
    (∃ g, check_shoreline a = .ok g ∧ a = .gdf g ∧ g.rows.isEmpty = false) := by
  cases a with
  | val v => exact Or.inl ⟨_, rfl⟩
  | gdf g =>
    cases hg : g.rows.isEmpty with
    | true => exact Or.inl ⟨"shoreline cannot be empty.", by simp [check_shoreline, hg]⟩
    | false => exact Or.inr ⟨g, by simp [check_shoreline, hg], rfl, hg⟩

theorem check_settings_dict_cases (label : String) (a : Arg) :
    (∃ m, check_settings_dict label a = .error (.valueError m)) ∨
    (∃ d, check_settings_dict label a = .ok d ∧ a = .val (.vDict d) ∧ d.isEmpty = false) := by
  cases a with
  | val v =>
    cases v with
    | vDict d =>
      cases hd : d.isEmpty with
      | true =>
        exact Or.inl ⟨label ++ " cannot be empty.", by simp [check_settings_dict, hd]⟩
      | false => exact Or.inr ⟨d, by simp [check_settings_dict, hd], rfl, hd⟩
    | vStr s => exact Or.inl ⟨_, rfl⟩
    | vBool b => exact Or.inl ⟨_, rfl⟩
    | vInt n => exact Or.inl ⟨_, rfl⟩
    | vNone => exact Or.inl ⟨_, rfl⟩
    | vList xs => exact Or.inl ⟨_, rfl⟩
    | vArr r => exact Or.inl ⟨_, rfl⟩
  | gdf g => exact Or.inl ⟨_, rfl⟩

theorem validate_args_cases (a b c d : Arg) :
    (∃ m, validate_args a b c d = .error (.valueError m)) ∨
    (∃ s g rd sd, validate_args a b c d = .ok (s, g, rd, sd) ∧
      a = .val (.vStr s) ∧ b = .gdf g ∧ g.rows.isEmpty = false ∧
      c = .val (.vDict rd) ∧ rd.isEmpty = false ∧
      d = .val (.vDict sd) ∧ sd.isEmpty = false) := by
  rcases check_roi_id_cases a with ⟨m, hm⟩ | ⟨s, hsk, ha⟩
  · exact Or.inl ⟨m, by simp [validate_args, hm, except_bind_ok, except_bind_err]⟩
  · rcases check_shoreline_cases b with ⟨m, hm⟩ | ⟨g, hgk, hb, hge⟩
    · exact Or.inl ⟨m, by simp [validate_args, hsk, hm, except_bind_ok, except_bind_err]⟩
    · rcases check_settings_dict_cases "roi_settings" c with ⟨m, hm⟩ | ⟨rd, hrk, hc, hre⟩
      · exact Or.inl ⟨m, by simp [validate_args, hsk, hgk, hm, except_bind_ok, except_bind_err]⟩
      · rcases check_settings_dict_cases "settings" d with ⟨m, hm⟩ | ⟨sd, hdk, hd, hde⟩
        · exact Or.inl ⟨m, by simp [validate_args, hsk, hgk, hrk, hm, except_bind_ok, except_bind_err]⟩
        · exact Or.inr ⟨s, g, rd, sd,
            by simp [validate_args, hsk, hgk, hrk, hdk, except_bind_ok, except_bind_err],
            ha, hb, hge, hc, hre, hd, hde⟩

/-! ### Inversion lemmas for `extract_shorelines` and `init` -/

theorem extract_shorelines_run (env : Env) (self : Extracted_Shoreline)
    (g : GeoDataFrame) (roi_settings settings : Dict) (epsg : PyVal)
    (h : dlookup settings "output_epsg" = some epsg) :
    self.extract_shorelines env g roi_settings settings =
      (let self1 := (self.create_shoreline_settings settings roi_settings
          (.vArr (get_reference_shoreline env g epsg))).1
       let metadata := env.get_metadata (.vDict roi_settings)
       let e0 := env.sds_extract_shorelines metadata self1.shoreline_settings
       let e1 := env.remove_duplicates e0
       let e2 := env.remove_inaccurate_georef e1 10
       .ok (self1, e2,
        [ .get_metadata (.vDict roi_settings) metadata,
          .sds_extract metadata self1.shoreline_settings e0,
          .remove_duplicates e0 e1,
          .remove_inaccurate_georef e1 10 e2 ])) := by
  simp [Extracted_Shoreline.extract_shorelines, dget, h,
    shoreline_settings_lookup_inputs, except_bind_ok, except_bind_err]

theorem extract_shorelines_ok_inversion (env : Env) (self : Extracted_Shoreline)
    (g : GeoDataFrame) (roi_settings settings : Dict)
    (self1 : Extracted_Shoreline) (out : Dict) (tr : List ExtCall)
    (h : self.extract_shorelines env g roi_settings settings = .ok (self1, out, tr)) :
    ∃ epsg, dlookup settings "output_epsg" = some epsg ∧
      self1 = (self.create_shoreline_settings settings roi_settings
        (.vArr (get_reference_shoreline env g epsg))).1 ∧
      out = env.remove_inaccurate_georef (env.remove_duplicates
        (env.sds_extract_shorelines (env.get_metadata (.vDict roi_settings))
          self1.shoreline_settings)) 10 ∧
      tr = (let metadata := env.get_metadata (.vDict roi_settings)
            let e0 := env.sds_extract_shorelines metadata self1.shoreline_settings
            let e1 := env.remove_duplicates e0
            [ .get_metadata (.vDict roi_settings) metadata,
              .sds_extract metadata self1.shoreline_settings e0,
              .remove_duplicates e0 e1,
              .remove_inaccurate_georef e1 10 out ]) := by
  cases hd : dlookup settings "output_epsg" with
  | none => simp [Extracted_Shoreline.extract_shorelines, dget, hd, except_bind_ok, except_bind_err] at h
  | some epsg =>
    rw [extract_shorelines_run env self g roi_settings settings epsg hd] at h
    simp only [Except.ok.injEq, Prod.mk.injEq] at h
    obtain ⟨h1, h2, h3⟩ := h
    subst h1
    subst h2
    exact ⟨epsg, rfl, rfl, rfl, h3.symm⟩

theorem init_ok_inversion (env : Env) (a b c d : Arg) (out : Extracted_Shoreline)
    (h : init env a b c d = .ok out) :
    ∃ s g rd sd self1 ex tr sval epsg,
      validate_args a b c d = .ok (s, g, rd, sd) ∧
      (init_self s).extract_shorelines env g rd sd = .ok (self1, ex, tr) ∧
      dlookup ex "shorelines" = some sval ∧
      is_list_empty sval = false ∧
      dlookup self1.shoreline_settings "output_epsg" = some epsg ∧
      out = (let self2 : Extracted_Shoreline := { self1 with extracted_shorelines := ex }
             { self2 with gdf := self2.create_geodataframe env epsg (some (.vStr "EPSG:4326")) }) := by
  cases hv : validate_args a b c d with
  | error e => simp [init, hv, except_bind_ok, except_bind_err] at h
  | ok t =>
    obtain ⟨s, g, rd, sd⟩ := t
    cases he : (init_self s).extract_shorelines env g rd sd with
    | error e => simp [init, hv, he, except_bind_ok, except_bind_err] at h
    | ok t2 =>
      obtain ⟨self1, ex, tr⟩ := t2
      cases hs : dlookup ex "shorelines" with
      | none => simp [init, hv, he, dget, hs, except_bind_ok, except_bind_err] at h
      | some sval =>
        cases hle : is_list_empty sval with
        | true => simp [init, hv, he, dget, hs, hle, except_bind_ok, except_bind_err] at h
        | false =>
          cases ho : dlookup self1.shoreline_settings "output_epsg" with
          | none => simp [init, hv, he, dget, hs, hle, ho, except_bind_ok, except_bind_err] at h
          | some epsg =>
            refine ⟨s, g, rd, sd, self1, ex, tr, sval, epsg, rfl, he, hs, hle, ho, ?_⟩
            simp [init, hv, he, dget, hs, hle, ho, except_bind_ok, except_bind_err] at h
            exact h.symm

/-! ### Claims -/

/-- C1: if `roi_id` is not a string, or `shoreline` is not a `GeoDataFrame`
or is an empty one, or `roi_settings` is not a dict or is the empty dict,
or `settings` is not a dict or is the empty dict, then the constructor
raises `ValueError`; the conclusion holds for every environment, so the
validation happens before any extraction work is performed. -/
theorem init_validates_constructor_arguments (a b c d : Arg)
    (hbad : isStrArg a = false ∨ isGdfArg b = false ∨ isEmptyGdfArg b = true ∨
            isDictArg c = false ∨ isEmptyDictArg c = true ∨
            isDictArg d = false ∨ isEmptyDictArg d = true) :
    ∀ env : Env, isValueError (init env a b c d) = true := by
  intro env
  rcases validate_args_cases a b c d with ⟨m, hm⟩ |
    ⟨s, g, rd, sd, hok, ha, hb, hge, hc, hre, hd2, hse⟩
  · simp [init, hm, except_bind_err, isValueError]
  · subst ha; subst hb; subst hc; subst hd2
    rcases hbad with h | h | h | h | h | h | h <;>
      simp [isStrArg, isGdfArg, isEmptyGdfArg, isDictArg, isEmptyDictArg,
        hge, hre, hse] at h

/-- C1 witness: a non-string `roi_id` is rejected with `ValueError`. -/
theorem init_validates_constructor_arguments_witness :
    isValueError (init env0 (.val (.vInt 3)) b0 c0 d0) = true :=
  init_validates_constructor_arguments (.val (.vInt 3)) b0 c0 d0 (Or.inl rfl) env0

/-- C2: the dictionary returned by a successful `extract_shorelines` is
obtained from the external detection library's output by applying the
duplicate-removal post-filter and then the inaccurate-georeferencing
post-filter with threshold 10, in that order. -/
theorem extract_shorelines_postfilters_in_order (env : Env)
    (self : Extracted_Shoreline) (g : GeoDataFrame) (roi_settings settings : Dict)
    (self1 : Extracted_Shoreline) (out : Dict) (tr : List ExtCall)
    (h : self.extract_shorelines env g roi_settings settings = .ok (self1, out, tr)) :
    out = env.remove_inaccurate_georef (env.remove_duplicates
      (env.sds_extract_shorelines (env.get_metadata (.vDict roi_settings))
        self1.shoreline_settings)) 10 := by
  obtain ⟨epsg, _, hself, hout, _⟩ :=
    extract_shorelines_ok_inversion env self g roi_settings settings self1 out tr h
  exact hout

/-- C2 witness, on the concrete fixtures. -/
theorem extract_shorelines_postfilters_in_order_witness :
    extract_w.2.1 = env0.remove_inaccurate_georef (env0.remove_duplicates
      (env0.sds_extract_shorelines (env0.get_metadata (.vDict rd0))
        extract_w.1.shoreline_settings)) 10 :=
  extract_shorelines_postfilters_in_order env0 (init_self "2") g0 rd0 sd0
    extract_w.1 extract_w.2.1 extract_w.2.2 rfl

/-- C3: after `create_shoreline_settings`, `self.shoreline_settings` is the
deep copy of `settings` patched so that `reference_shoreline`, `inputs`,
`adjust_detection` and `check_detection` have the prescribed values, while
every other key keeps its value from `settings`. -/
theorem create_shoreline_settings_patches (self : Extracted_Shoreline)
    (settings roi_settings : Dict) (reference_shoreline : PyVal) :
    dlookup (self.create_shoreline_settings settings roi_settings
      reference_shoreline).1.shoreline_settings "reference_shoreline" =
        some reference_shoreline ∧
    dlookup (self.create_shoreline_settings settings roi_settings
      reference_shoreline).1.shoreline_settings "inputs" = some (.vDict roi_settings) ∧
    dlookup (self.create_shoreline_settings settings roi_settings
      reference_shoreline).1.shoreline_settings "adjust_detection" = some (.vBool false) ∧
    dlookup (self.create_shoreline_settings settings roi_settings
      reference_shoreline).1.shoreline_settings "check_detection" = some (.vBool false) ∧
    ∀ k : String, k ≠ "reference_shoreline" → k ≠ "inputs" →
      k ≠ "adjust_detection" → k ≠ "check_detection" →
      dlookup (self.create_shoreline_settings settings roi_settings
        reference_shoreline).1.shoreline_settings k = dlookup settings k :=
  ⟨shoreline_settings_lookup_reference self settings roi_settings reference_shoreline,
   shoreline_settings_lookup_inputs self settings roi_settings reference_shoreline,
   shoreline_settings_lookup_adjust self settings roi_settings reference_shoreline,
   shoreline_settings_lookup_check self settings roi_settings reference_shoreline,
   fun k h1 h2 h3 h4 =>
     shoreline_settings_lookup_other self settings roi_settings reference_shoreline k
       h1 h2 h3 h4⟩

/-- C3 witness: on the concrete fixtures the untouched key `sat_list`
keeps its value and the four patched keys have the prescribed values. -/
theorem create_shoreline_settings_patches_witness :
    dlookup ((init_self "2").create_shoreline_settings sd0 rd0
      (.vArr [[1, 2, 0]])).1.shoreline_settings "sat_list" = dlookup sd0 "sat_list" ∧
    dlookup ((init_self "2").create_shoreline_settings sd0 rd0
      (.vArr [[1, 2, 0]])).1.shoreline_settings "adjust_detection" = some (.vBool false) :=
  ⟨(create_shoreline_settings_patches (init_self "2") sd0 rd0
      (.vArr [[1, 2, 0]])).2.2.2.2 "sat_list"
      (by decide) (by decide) (by decide) (by decide),
   (create_shoreline_settings_patches (init_self "2") sd0 rd0
      (.vArr [[1, 2, 0]])).2.2.1⟩

/-- C4: `create_shoreline_settings` leaves the caller's `settings`
dictionary unchanged: the value of the `settings` variable after the call
is the value before it, so no key is added, removed or rebound. -/
theorem create_shoreline_settings_preserves_caller_settings
    (self : Extracted_Shoreline) (settings roi_settings : Dict)
    (reference_shoreline : PyVal) :
    (self.create_shoreline_settings settings roi_settings reference_shoreline).2.1 =
      settings ∧
    ((self.create_shoreline_settings settings roi_settings
      reference_shoreline).2.1).map Prod.fst = settings.map Prod.fst ∧
    ∀ k : String,
      dlookup (self.create_shoreline_settings settings roi_settings
        reference_shoreline).2.1 k = dlookup settings k :=
  ⟨rfl, rfl, fun _ => rfl⟩

/-- C5: `create_geodataframe` returns a geodataframe whose CRS is
`output_crs` when one is given (its geometries reprojected from
`input_crs` to that CRS) and `input_crs` otherwise; and every successful
constructor materializes `self.gdf` in the fixed map CRS `"EPSG:4326"`,
reprojected from the CRS given by `shoreline_settings["output_epsg"]`. -/
theorem create_geodataframe_crs (env : Env) (self : Extracted_Shoreline)
    (input_crs c : PyVal) :
    (self.create_geodataframe env input_crs (some c)).crs = some c ∧
    (self.create_geodataframe env input_crs (some c)).rows =
      (env.output_to_gdf self.extracted_shorelines "lines").rows.map
        (fun row =>
          { row with geometry := env.reproject (some input_crs) c row.geometry }) ∧
    (self.create_geodataframe env input_crs none).crs = some input_crs ∧
    ∀ (env2 : Env) (a b r s : Arg) (out : Extracted_Shoreline),
      init env2 a b r s = .ok out →
      out.gdf.crs = some (.vStr "EPSG:4326") ∧
      ∃ epsg, dlookup out.shoreline_settings "output_epsg" = some epsg ∧
        out.gdf = out.create_geodataframe env2 epsg (some (.vStr "EPSG:4326")) ∧
        out.gdf.rows =
          (env2.output_to_gdf out.extracted_shorelines "lines").rows.map
            (fun row =>
              { row with geometry := env2.reproject (some epsg) (.vStr "EPSG:4326") row.geometry }) := by
  refine ⟨rfl, rfl, rfl, ?_⟩
  intro env2 a b r s out h
  obtain ⟨s', g, rd, sd, self1, ex, tr, sval, epsg, _, _, _, _, ho, hout⟩ :=
    init_ok_inversion env2 a b r s out h
  subst hout
  exact ⟨rfl, epsg, ho, rfl, rfl⟩

/-- C5 witness, on the concrete fixtures: the constructed `self_w.gdf` is
exactly the geodataframe reprojected from `output_epsg = 3857` (the value
in `sd0`) to `"EPSG:4326"`. -/
theorem create_geodataframe_crs_witness :
    (self_w.create_geodataframe env0 (.vInt 3857) (some (.vStr "EPSG:3857"))).crs =
      some (.vStr "EPSG:3857") ∧
    self_w.gdf.crs = some (.vStr "EPSG:4326") ∧
    dlookup self_w.shoreline_settings "output_epsg" = some (.vInt 3857) ∧
    self_w.gdf = self_w.create_geodataframe env0 (.vInt 3857) (some (.vStr "EPSG:4326")) := by
  have h := create_geodataframe_crs env0 self_w (.vInt 3857) (.vStr "EPSG:3857")
  obtain ⟨hcrs, epsg, hlook, hgdf, hrows⟩ := h.2.2.2 env0 a0 b0 c0 d0 self_w rfl
  have hc : dlookup self_w.shoreline_settings "output_epsg" = some (.vInt 3857) := rfl
  have hlook2 := hlook
  rw [hc] at hlook2
  have hepsg : epsg = .vInt 3857 := (Option.some.inj hlook2).symm
  subst hepsg
  exact ⟨h.1, hcrs, hlook, hgdf⟩

/-- C6 counterexample: on concrete inputs the extraction step performs
four external detection-library calls, not three. -/
theorem extract_shorelines_not_three_calls :
    trace_len (Extracted_Shoreline.extract_shorelines env0 (init_self "2") g0 rd0 sd0) =
      some 4 ∧
    trace_len (Extracted_Shoreline.extract_shorelines env0 (init_self "2") g0 rd0 sd0) ≠
      some 3 :=
  ⟨rfl, by decide⟩

/-- C6 (amended): the shoreline-extraction step calls exactly four
functions of the external detection library; each call after the first
takes the previous call's result as input, and `extract_shorelines`
returns the last call's result. -/
theorem extract_shorelines_four_chained_calls (env : Env)
    (self : Extracted_Shoreline) (g : GeoDataFrame) (roi_settings settings : Dict)
    (self1 : Extracted_Shoreline) (out : Dict) (tr : List ExtCall)
    (h : self.extract_shorelines env g roi_settings settings = .ok (self1, out, tr)) :
    tr.map ExtCall.fname =
      ["SDS_download.get_metadata", "SDS_shoreline.extract_shorelines",
       "SDS_tools.remove_duplicates", "SDS_tools.remove_inaccurate_georef"] ∧
    tr.length = 4 ∧ chained tr ∧
    tr.getLast?.map ExtCall.output = some (.vDict out) := by
  obtain ⟨epsg, _, hself, hout, htr⟩ :=
    extract_shorelines_ok_inversion env self g roi_settings settings self1 out tr h
  subst htr
  refine ⟨rfl, rfl, ?_, rfl⟩
  simp [chained, ExtCall.takes, ExtCall.output]

/-- C6 witness for the amended claim, on the concrete fixtures. -/
theorem extract_shorelines_four_chained_calls_witness :
    extract_w.2.2.map ExtCall.fname =
      ["SDS_download.get_metadata", "SDS_shoreline.extract_shorelines",
       "SDS_tools.remove_duplicates", "SDS_tools.remove_inaccurate_georef"] ∧
    extract_w.2.2.length = 4 ∧ chained extract_w.2.2 ∧
    extract_w.2.2.getLast?.map ExtCall.output = some (.vDict extract_w.2.1) :=
  extract_shorelines_four_chained_calls env0 (init_self "2") g0 rd0 sd0
    extract_w.1 extract_w.2.1 extract_w.2.2 rfl

/-- C7: `save_to_file` writes `self.gdf` to the file at
`os.path.join(filepath, sitename, FILE_NAME)`, and the loading operation
reads the saved feature collection back from that file. -/
theorem save_then_load_roundtrip (self : Extracted_Shoreline)
    (sitename filepath : String) (fs : FileSys) :
    load_extracted_shorelines sitename filepath
      (self.save_to_file sitename filepath fs) = some self.gdf := by
  simp [load_extracted_shorelines, Extracted_Shoreline.save_to_file, fslookup]

/-- C8: after every successful construction, `adjust_detection` and
`check_detection` are `False` in `shoreline_settings`, whatever the caller
supplied for those keys. -/
theorem init_disables_detection_flags (env : Env) (a b c d : Arg)
    (out : Extracted_Shoreline) (h : init env a b c d = .ok out) :
    dlookup out.shoreline_settings "adjust_detection" = some (.vBool false) ∧
    dlookup out.shoreline_settings "check_detection" = some (.vBool false) := by
  obtain ⟨s, g, rd, sd, self1, ex, tr, sval, epsg, hv, he, hs, hle, ho, hout⟩ :=
    init_ok_inversion env a b c d out h
  obtain ⟨epsg2, _, hself1, _, _⟩ :=
    extract_shorelines_ok_inversion env (init_self s) g rd sd self1 ex tr he
  subst hout
  subst hself1
  exact ⟨shoreline_settings_lookup_adjust (init_self s) sd rd
           (.vArr (get_reference_shoreline env g epsg2)),
         shoreline_settings_lookup_check (init_self s) sd rd
           (.vArr (get_reference_shoreline env g epsg2))⟩

/-- C8 witness, on the concrete fixtures. -/
theorem init_disables_detection_flags_witness :
    dlookup self_w.shoreline_settings "adjust_detection" = some (.vBool false) ∧
    dlookup self_w.shoreline_settings "check_detection" = some (.vBool false) :=
  init_disables_detection_flags env0 a0 b0 c0 d0 self_w rfl

/-- C9: when the post-filtered `'shorelines'` list is empty, the
constructor raises `No_Extracted_Shoreline` for the given ROI id instead
of reaching geodataframe creation. -/
theorem init_raises_when_no_shorelines (env : Env) (s : String)
    (g : GeoDataFrame) (rd sd : Dict) (self1 : Extracted_Shoreline)
    (ex : Dict) (tr : List ExtCall)
    (hg : g.rows.isEmpty = false) (hrd : rd.isEmpty = false)
    (hsd : sd.isEmpty = false)
    (he : (init_self s).extract_shorelines env g rd sd = .ok (self1, ex, tr))
    (hs : dlookup ex "shorelines" = some (.vList [])) :
    init env (.val (.vStr s)) (.gdf g) (.val (.vDict rd)) (.val (.vDict sd)) =
      .error (.noExtractedShoreline s) := by
  have hroi : self1.roi_id = s := by
    obtain ⟨epsg, _, hself1, _, _⟩ :=
      extract_shorelines_ok_inversion env (init_self s) g rd sd self1 ex tr he
    subst hself1
    rfl
  simp [init, validate_args, check_roi_id, check_shoreline, check_settings_dict,
    hg, hrd, hsd, he, dget, hs, is_list_empty, hroi,
    except_bind_ok, except_bind_err]

/-- C9 witness: in the environment where the detection library finds
nothing, construction fails with `No_Extracted_Shoreline`. -/
theorem init_raises_when_no_shorelines_witness :
    init env_empty a0 b0 c0 d0 = .error (.noExtractedShoreline "2") :=
  init_raises_when_no_shorelines env_empty "2" g0 rd0 sd0
    extract_e.1 extract_e.2.1 extract_e.2.2 rfl rfl rfl rfl rfl

/-- C10: `get_layer_names` returns one string per geodataframe row; the
i-th string is `"ID" ++ roi_id ++ "_" ++ date` for the i-th row's date, in
row order. -/
theorem get_layer_names_per_row (self : Extracted_Shoreline) :
    self.get_layer_names.length = self.gdf.rows.length ∧
    ∀ i : Nat, self.get_layer_names[i]? =
      (self.gdf.rows[i]?).map (fun r => "ID" ++ self.roi_id ++ "_" ++ r.date) := by
  constructor
  · simp [Extracted_Shoreline.get_layer_names, GeoDataFrame.date_column]
  · intro i
    simp only [Extracted_Shoreline.get_layer_names, GeoDataFrame.date_column,
      List.getElem?_map]
    cases self.gdf.rows[i]? <;> rfl

end CoastSeg
